import Mathlib

set_option maxRecDepth 200000

/-!
Shallow embedding of the JVC projector LAN-client core of this repository:
`custom_components/jvc_projector_ha/jvcprojector/command.py` (the command
model and its response formatter table), `jvcprojector/error.py` (the error
class hierarchy), and the connect handshake described in the design
documentation.  Machine strings are `String`/`List Char`; Python integers
are `Int`; fallible Python code returns `Except`.
-/

namespace Jvc

/-! Constants from `jvcprojector/const.py` used by the formatter table. -/

def STANDBY : String := "standby"

def ON : String := "on"

def COOLING : String := "cooling"

def WARMING : String := "warming"

def ERROR : String := "error"

def OFF : String := "off"

def HDMI1 : String := "hdmi1"

def HDMI2 : String := "hdmi2"

def NOSIGNAL : String := "nosignal"

def SIGNAL : String := "signal"

/-! Handshake tokens from `command.py` (byte strings in the source). -/

def PJOK : String := "PJ_OK"

def PJNG : String := "PJ_NG"

def PJREQ : String := "PJREQ"

def PJACK : String := "PJACK"

def PJNAK : String := "PJNAK"

/-- Python exception kinds that can arise inside `JvcCommand.response`. -/
inductive PyErr where
  | valueError
  | keyError
  | indexError
  deriving DecidableEq, Repr

/-- Value of an ASCII hexadecimal digit character, if it is one. -/
def hexDigit? (c : Char) : Option Nat :=
  if '0' ≤ c ∧ c ≤ '9' then some (c.toNat - '0'.toNat)
  else if 'a' ≤ c ∧ c ≤ 'f' then some (c.toNat - 'a'.toNat + 10)
  else if 'A' ≤ c ∧ c ≤ 'F' then some (c.toNat - 'A'.toNat + 10)
  else none

/-- Parse a nonempty run of ASCII hex digits as a natural number. -/
def hexNat? (cs : List Char) : Option Nat :=
  if cs.isEmpty then none
  else cs.foldl (fun acc c => acc.bind fun a => (hexDigit? c).map fun d => 16 * a + d) (some 0)

/-- Models Python `int(s, 16)` on the string shapes the formatter table can
capture: an optional single sign followed by ASCII hex digits.  The extra
forms Python also accepts (surrounding whitespace, a `0x` prefix,
underscores between digits, non-ASCII digits) are not modelled; parsing
fails (`ValueError`) exactly when this returns `none`. -/
def pyIntHex? (s : String) : Option Int :=
  match s.data with
  | '+' :: cs => (hexNat? cs).map (fun n => (n : Int))
  | '-' :: cs => (hexNat? cs).map (fun n => -(n : Int))
  | cs => (hexNat? cs).map (fun n => (n : Int))

/-- Python list indexing `xs[i]`: a negative index counts from the end, and
an out-of-range index raises `IndexError`. -/
def pyListGet (xs : List (Option String)) (i : Int) : Except PyErr (Option String) :=
  let j : Int := if i < 0 then i + xs.length else i
  if 0 ≤ j ∧ j < (xs.length : Int) then .ok (xs.getD j.toNat none) else .error .indexError

/-- Python `str.isspace` characters in the ASCII range. -/
def pyIsSpace (c : Char) : Bool :=
  c == ' ' || c == '\t' || c == '\n' || c == '\r' || c == '\x0b' || c == '\x0c'

/-- Python `str.strip()` on ASCII text: drop whitespace from both ends. -/
def pyStrip (s : String) : String :=
  ⟨((s.data.dropWhile pyIsSpace).reverse.dropWhile pyIsSpace).reverse⟩

/-- Collapse every run of consecutive dashes to a single dash, as
`re.sub(r"-+", "-", s)` does. -/
def collapseDashes (cs : List Char) : List Char :=
  (cs.foldl (fun acc c => if c = '-' ∧ acc.head? = some '-' then acc else c :: acc) []).reverse

/-- The `"IFLT(....)"` formatter: `lambda r: str(int(r[1], 16))`. -/
def fmtIFLT (gs : List String) : Except Unit String :=
  match pyIntHex? (gs.headD "") with
  | some n => .ok (toString n)
  | none => .error ()

/-- The `"MD(.+)"` formatter: `lambda r: r[1].strip()`. -/
def fmtMD (gs : List String) : Except Unit String :=
  .ok (pyStrip (gs.headD ""))

/-- The `"LSMA(.+)"` formatter:
`lambda r: re.sub(r"-+", "-", r[1].replace(" ", "-"))`. -/
def fmtLSMA (gs : List String) : Except Unit String :=
  .ok ⟨collapseDashes ((gs.headD "").data.map (fun c => if c = ' ' then '-' else c))⟩

/-- The `"LSIP(..)(..)(..)(..)"` formatter: each two-hex-digit group becomes
a decimal octet and the four octets are joined with dots. -/
def fmtLSIP (gs : List String) : Except Unit String :=
  match pyIntHex? (gs.getD 0 ""), pyIntHex? (gs.getD 1 ""),
      pyIntHex? (gs.getD 2 ""), pyIntHex? (gs.getD 3 "") with
  | some a, some b, some c, some d =>
      .ok (toString a ++ "." ++ toString b ++ "." ++ toString c ++ "." ++ toString d)
  | _, _, _, _ => .error ()

/-- One capture group of a table pattern: `(.)`, `(..)` and `(....)` are
fixed runs of 1, 2 or 4 non-newline characters; `(.+)` is a greedy nonempty
run of non-newline characters. -/
inductive GSpec where
  | fixed (n : Nat)
  | plus
  deriving DecidableEq

/-- A formatter-table pattern, matched as `re.search("^" + pat + "$", res)`:
one of several literal alternatives (from a leading literal and an optional
`(?:a|b|…)` alternation) followed by capture groups.  In the regex engine
`.` does not match a newline and `$` also matches just before one trailing
newline; both are reflected in the matcher below. -/
structure Pat where
  lits : List String
  groups : List GSpec

/-- End-of-input test for the `$` anchor: all input consumed, or exactly one
trailing newline left. -/
def matchEnd (cs : List Char) : Bool :=
  cs.isEmpty || cs == ['\n']

/-- Match a sequence of capture groups against the remaining characters and
return the captured substrings.  The greedy `(.+)` needs no backtracking
here because in the source table it is always the final group. -/
def matchGroups : List GSpec → List Char → Option (List String)
  | [], cs => if matchEnd cs then some [] else none
  | .fixed n :: gs, cs =>
      let g := cs.take n
      if g.length = n ∧ g.all (fun c => c != '\n') then
        (matchGroups gs (cs.drop n)).map (fun r => (⟨g⟩ : String) :: r)
      else none
  | .plus :: gs, cs =>
      let g := cs.takeWhile (fun c => c != '\n')
      if g.length ≠ 0 then
        (matchGroups gs (cs.drop g.length)).map (fun r => (⟨g⟩ : String) :: r)
      else none

/-- Anchored match of a table pattern against the characters of
`code + response`, trying the literal alternatives left to right as the
regex engine does. -/
def matchPat (p : Pat) (cs : List Char) : Option (List String) :=
  p.lits.findSome? (fun lit =>
    if lit.data.isPrefixOf cs then matchGroups p.groups (cs.drop lit.length) else none)

/-- A formatter table value: an enumerated list indexed by a hex group
(`none` marking a reserved slot, as `None` does in the source), a lookup
map keyed by the captured string, or a computed function of the captured
groups that may raise. -/
inductive Fmt where
  | list (entries : List (Option String))
  | map (entries : List (String × String))
  | fn (f : List String → Except Unit String)

/-- The entries of a `Fmt.list` value, if it is one. -/
def fmtEntries : Fmt → Option (List (Option String))
  | .list es => some es
  | _ => none

/-- The `JvcCommand.formatters` dict literal as written in the source, entry
by entry in declaration order.  Each entry keeps the regex source text as its
key; note that the key `"IFCM(.)"` is written twice. -/
def rawFormatters : List (String × Pat × Fmt) := [
  ("PW(.)", ⟨["PW"], [.fixed 1]⟩,
    .list [some STANDBY, some ON, some COOLING, some WARMING, some ERROR]),
  ("(?:IP|IFIN)(.)", ⟨["IP", "IFIN"], [.fixed 1]⟩,
    .map [("0", "svideo"), ("1", "video"), ("2", "component"), ("3", "pc"),
      ("6", HDMI1), ("7", HDMI2)]),
  ("SC(.)", ⟨["SC"], [.fixed 1]⟩, .list [some NOSIGNAL, some SIGNAL]),
  ("IFIS(..)", ⟨["IFIS"], [.fixed 2]⟩,
    .map [("02", "480p"), ("03", "576p"), ("04", "720p50"), ("05", "720p60"),
      ("08", "1080p24"), ("09", "1080p50"), ("0A", "1080p60"), ("0B", "No Signal"),
      ("0F", "Out of Range"), ("10", "4k(4096)60"), ("11", "4k(4096)50"),
      ("12", "4k(4096)30"), ("13", "4k(4096)25"), ("14", "4k(4096)24"),
      ("15", "4k(3840)60"), ("16", "4k(3840)50"), ("17", "4k(3840)30"),
      ("18", "4k(3840)25"), ("19", "4k(3840)24"), ("1C", "1080p25"),
      ("1D", "1080p30"), ("1E", "2048x1080 p24"), ("1F", "2048x1080 p25"),
      ("20", "2048x1080 p30"), ("21", "2048x1080 p50"), ("22", "2048x1080 p60"),
      ("25", "VGA(640x480)"), ("26", "SVGA(800x600)"), ("2C", "WUXGA(1920x1200)"),
      ("30", "UXGA(1600x1200)"), ("31", "QXGA"), ("3D", "WQHD60")]),
  ("IFLT(....)", ⟨["IFLT"], [.fixed 4]⟩, .fn fmtIFLT),
  ("IFCM(.)", ⟨["IFCM"], [.fixed 1]⟩,
    .list [some "no_data", some "bt601", some "bt709", some "xvycc601",
      some "xvycc709", some "sycc601", some "adobe_ycc601", some "adobe_rgb",
      some "bt2020_cl", some "bt2020_ncl", some "srgb", some "dci_p3_d65",
      some "dci_p3_theater"]),
  ("MD(.+)", ⟨["MD"], [.plus]⟩, .fn fmtMD),
  ("PMPM(..)", ⟨["PMPM"], [.fixed 2]⟩,
    .map [("01", "cinema"), ("03", "natural"), ("0B", "frame_adapt_hdr"),
      ("0C", "sdr1"), ("0D", "sdr2"), ("0E", "hdr1"), ("0F", "hdr2"),
      ("14", "hlg"), ("15", "hdr10+"), ("17", "filmmaker"),
      ("18", "frame_adapt_hdr2"), ("1B", "vivid")]),
  ("PMCT(.)", ⟨["PMCT"], [.fixed 1]⟩,
    .map [("0", "auto"), ("1", "sdr"), ("2", "hdr10+"), ("3", "hdr10"), ("4", "hlg")]),
  ("PMAT(.)", ⟨["PMAT"], [.fixed 1]⟩,
    .map [("1", "sdr"), ("2", "hdr10+"), ("3", "hdr10"), ("4", "hlg")]),
  ("PMDI(.)", ⟨["PMDI"], [.fixed 1]⟩, .list [some "off", some "auto1", some "auto2"]),
  ("PMPR(..)", ⟨["PMPR"], [.fixed 2]⟩,
    .map [("00", "off"), ("01", "film1"), ("02", "film2"), ("03", "bt709"),
      ("04", "cinema"), ("05", "cinema2"), ("06", "anime"), ("07", "anime2"),
      ("08", "video"), ("09", "vivid"), ("0A", "hdr"), ("0B", "bt2020(wide)"),
      ("0C", "3d"), ("0D", "thx"), ("0E", "custom1"), ("0F", "custom2"),
      ("10", "custom3"), ("11", "custom4"), ("12", "custom5"), ("21", "dci"),
      ("22", "custom6"), ("24", "bt2020(normal)"), ("25", "off(wide)"),
      ("26", "auto")]),
  ("PMCL(..)", ⟨["PMCL"], [.fixed 2]⟩,
    .map [("00", "5500k"), ("02", "6500k"), ("04", "7500k"), ("08", "9300k"),
      ("09", "high"), ("0A", "custom1"), ("0B", "custom2"), ("0C", "hdr10"),
      ("0D", "xenon1"), ("0E", "xenon2"), ("14", "hlg")]),
  ("PMCC(..)", ⟨["PMCC"], [.fixed 2]⟩,
    .map [("00", "5500k"), ("02", "6500k"), ("04", "7500k"), ("08", "9300k"),
      ("09", "high"), ("0D", "xenon1"), ("0E", "xenon2")]),
  ("PMGT(..)", ⟨["PMGT"], [.fixed 2]⟩,
    .map [("00", "2.2"), ("01", "cinema1"), ("02", "cinema2"), ("04", "custom1"),
      ("05", "custom2"), ("06", "custom3"), ("07", "hdr_hlg"), ("08", "2.4"),
      ("09", "2.6"), ("0A", "film1"), ("0B", "film2"), ("0C", "hdr_pq"),
      ("0D", "pana_pq"), ("10", "thx"), ("15", "hdr_auto")]),
  ("PM(?:CB|LL|US)(.)", ⟨["PMCB", "PMLL", "PMUS"], [.fixed 1]⟩,
    .list [some "off", some "on"]),
  ("PMCM(.)", ⟨["PMCM"], [.fixed 1]⟩,
    .list [some "off", none, none, some "low", some "high", some "inverse_telecine"]),
  ("PMME(.)", ⟨["PMME"], [.fixed 1]⟩, .list [some "off", some "low", some "high"]),
  ("PMLP(.)", ⟨["PMLP"], [.fixed 1]⟩, .list [some "low", some "med", some "high"]),
  ("PMDC(.)", ⟨["PMDC"], [.fixed 1]⟩,
    .list [some "off", some "low", some "high", some "balanced"]),
  ("PMGM(.)", ⟨["PMGM"], [.fixed 1]⟩, .list [some "standard", some "high-res"]),
  ("ISIL(.)", ⟨["ISIL"], [.fixed 1]⟩,
    .list [some "standard", some "enhanced", some "super_white", some "auto"]),
  ("ISHS(.)", ⟨["ISHS"], [.fixed 1]⟩,
    .list [some "auto", some "ycbcr(4:4:4)", some "ycbcr(4:2:2)", some "rgb"]),
  ("IS3D(.)", ⟨["IS3D"], [.fixed 1]⟩,
    .list [some "2d", some "auto", none, some "side_by_side", some "top_bottom"]),
  ("ISAS(.)", ⟨["ISAS"], [.fixed 1]⟩,
    .list [none, none, some "zoom", some "auto", some "native"]),
  ("ISMA(.)", ⟨["ISMA"], [.fixed 1]⟩, .list [none, some "on", some "off"]),
  ("IN(?:FN|FF|ZT|ZW|SL|SR|SU|SD)(.)",
    ⟨["INFN", "INFF", "INZT", "INZW", "INSL", "INSR", "INSU", "INSD"], [.fixed 1]⟩,
    .list [some "stop", some "start"]),
  ("IN(?:IP|LL|SC|HA)(.)", ⟨["INIP", "INLL", "INSC", "INHA"], [.fixed 1]⟩,
    .list [some "off", some "on"]),
  ("INIS(.)", ⟨["INIS"], [.fixed 1]⟩,
    .list [some "front", some "front_ceiling", some "rear", some "rear_ceiling"]),
  ("INVS(.)", ⟨["INVS"], [.fixed 1]⟩,
    .list [some "off", some "a", some "b", some "c", some "d"]),
  ("DSBC(.)", ⟨["DSBC"], [.fixed 1]⟩, .list [some "blue", some "black"]),
  ("DSMP(.)", ⟨["DSMP"], [.fixed 1]⟩,
    .list [some "left-top", some "right-top", some "center", some "left-bottom",
      some "right-bottom", some "left", some "right"]),
  ("DS(?:SD|LO)(.)", ⟨["DSSD", "DSLO"], [.fixed 1]⟩, .list [some "off", some "on"]),
  ("FUTR(.)", ⟨["FUTR"], [.fixed 1]⟩,
    .list [some "off", some "power", some "anamo", some "ins1", some "ins2",
      some "ins3", some "ins4", some "ins5", some "ins6", some "ins7",
      some "ins8", some "ins9", some "ins10"]),
  ("FUOT(.)", ⟨["FUOT"], [.fixed 1]⟩,
    .list [some "off", some "1hour", some "2hour", some "3hour", some "4hour"]),
  ("FU(?:EM|CF)(.)", ⟨["FUEM", "FUCF"], [.fixed 1]⟩, .list [some "off", some "on"]),
  ("IFDC(.)", ⟨["IFDC"], [.fixed 1]⟩, .list [some "8bit", some "10bit", some "12bit"]),
  ("IFXV(.)", ⟨["IFXV"], [.fixed 1]⟩, .list [some "rgb", some "yuv"]),
  ("IFCM(.)", ⟨["IFCM"], [.fixed 1]⟩,
    .list [some "nodata", some "bt601", some "bt709", some "xvycc601",
      some "xvycc709", some "sycc601", some "adobe_ycc601", some "adobe_rgb",
      some "bt2020(constant_luminance)", some "bt2020(non-constant_luminance)",
      some "srgb"]),
  ("IFHR(.)", ⟨["IFHR"], [.fixed 1]⟩,
    .map [("0", "sdr"), ("1", "hdr"), ("2", "smpte_st_2084"), ("3", "hybrid_log"),
      ("F", "none")]),
  ("PMHL(.)", ⟨["PMHL"], [.fixed 1]⟩,
    .list [some "auto", some "-2", some "-1", some "0", some "1", some "2"]),
  ("PMHP(.)", ⟨["PMHP"], [.fixed 1]⟩, .list [some "static", some "frame", some "scene"]),
  ("PMNM(.)", ⟨["PMNM"], [.fixed 1]⟩, .list [some "off", some "on"]),
  ("PMNL(.)", ⟨["PMNL"], [.fixed 1]⟩,
    .list [some "reserved", some "low", some "medium", some "high"]),
  ("PMNP(.)", ⟨["PMNP"], [.fixed 1]⟩, .list [some "-", some "start"]),
  ("LSDS(.)", ⟨["LSDS"], [.fixed 1]⟩, .list [some OFF, some ON]),
  ("LSMA(.+)", ⟨["LSMA"], [.plus]⟩, .fn fmtLSMA),
  ("LSIP(..)(..)(..)(..)", ⟨["LSIP"], [.fixed 2, .fixed 2, .fixed 2, .fixed 2]⟩,
    .fn fmtLSIP)]

/-- Insert one key/value pair with Python dict-literal semantics: a repeated
key keeps its first position but takes the new value. -/
def dictInsert (acc : List (String × Pat × Fmt)) (e : String × Pat × Fmt) :
    List (String × Pat × Fmt) :=
  if acc.any (fun x => x.1 == e.1) then
    acc.map (fun x => if x.1 == e.1 then (x.1, e.2) else x)
  else acc ++ [e]

/-- Evaluate a dict literal to its entry list: keys in first-occurrence
order, each bound to the last value written for it. -/
def pyDict (xs : List (String × Pat × Fmt)) : List (String × Pat × Fmt) :=
  xs.foldl dictInsert []

/-- `JvcCommand.formatters` as Python evaluates the class-level dict
literal (insertion-ordered, the duplicated `"IFCM(.)"` key collapsed to its
last value). -/
def formatters : List (String × Pat × Fmt) := pyDict rawFormatters

/-- The fields of a `JvcCommand`: its code, the `is_ref` flag, and the
`_response` backing field (`resp` here) written by the response setter. -/
structure JvcCommand where
  code : String
  is_ref : Bool
  resp : Option String

/-- Apply a matched rule's formatter, mirroring the three `isinstance`
branches of `JvcCommand.response`.  Caught exceptions — `ValueError` for a
non-hex list index, `KeyError` for a missing dict key, any exception from a
callable — fall through the `break` to `return val`.  An out-of-range list
index raises `IndexError`, which none of the `except` clauses names. -/
def applyFmt (fmt : Fmt) (m1 : String) (gs : List String) (val : String) :
    Except PyErr (Option String) :=
  match fmt with
  | .list entries =>
      match pyIntHex? m1 with
      | none => .ok (some val)
      | some i => pyListGet entries i
  | .map entries =>
      match entries.lookup m1 with
      | some v => .ok (some v)
      | none => .ok (some val)
  | .fn f =>
      match f gs with
      | .ok s => .ok (some s)
      | .error _ => .ok (some val)

/-- The `JvcCommand.response` property.  `None` unless the command is a
reference command with a response attached; otherwise the first table
pattern whose anchored match against `code + response` succeeds decides the
value via `applyFmt`, and if no pattern matches the raw remainder after the
code prefix is returned verbatim. -/
def response (cmd : JvcCommand) : Except PyErr (Option String) :=
  match cmd.is_ref, cmd.resp with
  | false, _ => .ok none
  | true, none => .ok none
  | true, some r =>
      let res : List Char := cmd.code.data ++ r.data
      let val : String := ⟨res.drop cmd.code.data.length⟩
      match formatters.findSome? (fun e => (matchPat e.2.1 res).map (fun gs => (e.2.2, gs))) with
      | some x => applyFmt x.1 (x.2.headD "") x.2 val
      | none => .ok (some val)

/-- The exception classes of `jvcprojector/error.py`, together with the
Python builtin base they derive from. -/
inductive ExcClass where
  | pyException
  | jvcProjectorError
  | jvcProjectorConnectError
  | jvcProjectorCommandError
  | jvcProjectorAuthError
  deriving DecidableEq, Repr

/-- Direct base class of each class declared in `error.py`. -/
def parentOf : ExcClass → Option ExcClass
  | .pyException => none
  | .jvcProjectorError => some .pyException
  | .jvcProjectorConnectError => some .jvcProjectorError
  | .jvcProjectorCommandError => some .jvcProjectorError
  | .jvcProjectorAuthError => some .jvcProjectorError

/-- The classes a class is a subclass of: itself and the transitive closure
of `parentOf`, written out per class. -/
def ancestry : ExcClass → List ExcClass
  | .pyException => [.pyException]
  | .jvcProjectorError => [.jvcProjectorError, .pyException]
  | .jvcProjectorConnectError =>
      [.jvcProjectorConnectError, .jvcProjectorError, .pyException]
  | .jvcProjectorCommandError =>
      [.jvcProjectorCommandError, .jvcProjectorError, .pyException]
  | .jvcProjectorAuthError =>
      [.jvcProjectorAuthError, .jvcProjectorError, .pyException]

/-- Modelled from the spec: the connect handshake.  The repository code that
drives the handshake (the connection/device module) is not under `src` —
only `error.py` and the token constants in `command.py` are.  Spec section
4.2: after TCP connect, read the greeting, which must equal the fixed
`PJ_OK` token, any mismatch failing with a connect error; send `PJREQ` with
optional inline credentials; then read the acknowledgment, where `PJACK`
reaches Ready, `PJNAK` fails with the authentication-specific error, and
anything else fails with a generic connect error. -/
def handshake (greeting ack : String) : Except ExcClass Unit :=
  if greeting ≠ PJOK then .error .jvcProjectorConnectError
  else if ack = PJACK then .ok ()
  else if ack = PJNAK then .error .jvcProjectorAuthError
  else .error .jvcProjectorConnectError

/-- Decidable equality for `Except` results, to evaluate the model on
concrete commands. -/
instance {ε α : Type} [DecidableEq ε] [DecidableEq α] : DecidableEq (Except ε α) :=
  fun a b =>
    match a, b with
    | .ok x, .ok y =>
        if h : x = y then .isTrue (by rw [h]) else .isFalse (fun hh => h (Except.ok.inj hh))
    | .ok _, .error _ => .isFalse (fun hh => Except.noConfusion hh)
    | .error _, .ok _ => .isFalse (fun hh => Except.noConfusion hh)
    | .error x, .error y =>
        if h : x = y then .isTrue (by rw [h]) else .isFalse (fun hh => h (Except.error.inj hh))

/-- The colorimetry list assigned by the later of the two `"IFCM(.)"`
entries of the formatter dict literal. -/
def ifcmLater : List (Option String) :=
  [some "nodata", some "bt601", some "bt709", some "xvycc601", some "xvycc709",
    some "sycc601", some "adobe_ycc601", some "adobe_rgb",
    some "bt2020(constant_luminance)", some "bt2020(non-constant_luminance)",
    some "srgb"]

/-- The colorimetry option labels enumerated by the sensor layer
(`sensor.py`, the `IFCM` sensor description) that appear only in the
earlier, overwritten `"IFCM(.)"` list. -/
def ifcmLostLabels : List String :=
  ["no_data", "bt2020_cl", "bt2020_ncl", "dci_p3_d65", "dci_p3_theater"]

/-- The uppercase hexadecimal digit character for `n < 16`, as a
one-character response payload. -/
def hexUpper (n : Nat) : String := ⟨["0123456789ABCDEF".data.getD n '0']⟩

/-- `ancestry` is exactly each class followed by the ancestry of its
`parentOf` base, so it is the reflexive-transitive closure of the subclass
edges of `error.py`. -/
theorem ancestry_parentOf (c : ExcClass) :
    ancestry c = c :: (match parentOf c with | none => [] | some p => ancestry p) := by
  cases c <;> rfl

/-! Helper lemmas on `List.findSome?`, used to reason about the table walk
in `JvcCommand.response`. -/

/-- If `f` yields a value at index `i` of `l` and yields `none` at every
earlier index, then `l.findSome? f` is that value. -/
theorem findSome?_eq_of_get? {α β : Type} (f : α → Option β) :
    ∀ (l : List α) (i : Nat) (a : α) (b : β),
      l.get? i = some a → f a = some b →
      (∀ j, j < i → ∀ x, l.get? j = some x → f x = none) →
      l.findSome? f = some b
  | [], i, _, _, h1, _, _ => by simp at h1
  | x :: l, 0, a, b, h1, h2, _ => by
      simp only [List.get?] at h1
      cases h1
      simp [List.findSome?_cons, h2]
  | x :: l, i + 1, a, b, h1, h2, h3 => by
      have hx : f x = none := h3 0 (Nat.succ_pos i) x rfl
      have ih := findSome?_eq_of_get? f l i a b h1 h2
        (fun j hj y hy => h3 (j + 1) (Nat.succ_lt_succ hj) y hy)
      simp [List.findSome?_cons, hx, ih]

/-- If `f` yields `none` on every element then `findSome?` yields `none`. -/
theorem findSome?_eq_none_of_all {α β : Type} (f : α → Option β) :
    ∀ l : List α, (∀ x ∈ l, f x = none) → l.findSome? f = none
  | [], _ => rfl
  | x :: l, h => by
      have hx := h x (List.mem_cons_self x l)
      have ih := findSome?_eq_none_of_all f l (fun y hy => h y (List.mem_cons_of_mem x hy))
      simp [List.findSome?_cons, hx, ih]

/-- The raw remainder `val` computed inside `response` is the attached
response text itself. -/
theorem val_eq_raw (code raw : String) :
    (⟨(code.data ++ raw.data).drop code.data.length⟩ : String) = raw := by
  rw [List.drop_left]

/-- Unfolding of `response` for a reference command with a response, when
the table walk finds a first matching rule. -/
theorem response_found (code raw : String) (x : Fmt × List String)
    (h : formatters.findSome?
      (fun e => (matchPat e.2.1 (code.data ++ raw.data)).map (fun gs => (e.2.2, gs))) = some x) :
    response ⟨code, true, some raw⟩ = applyFmt x.1 (x.2.headD "") x.2 raw := by
  simp only [response]
  rw [h, val_eq_raw]

/-- Unfolding of `response` for a reference command with a response, when no
table pattern matches. -/
theorem response_not_found (code raw : String)
    (h : formatters.findSome?
      (fun e => (matchPat e.2.1 (code.data ++ raw.data)).map (fun gs => (e.2.2, gs))) = none) :
    response ⟨code, true, some raw⟩ = .ok (some raw) := by
  simp only [response]
  rw [h, val_eq_raw]

/-- If the rule at table index `i` matches `code + raw` while every earlier
rule does not, the decoded response is that rule's formatter applied to its
captured groups. -/
theorem response_first_match (code raw : String) (i : Nat) (s : String)
    (p : Pat) (f : Fmt) (gs : List String)
    (h1 : formatters.get? i = some (s, p, f))
    (h2 : matchPat p (code.data ++ raw.data) = some gs)
    (h3 : ∀ j, j < i →
      (formatters.get? j).bind (fun q => matchPat q.2.1 (code.data ++ raw.data)) = none) :
    response ⟨code, true, some raw⟩ = applyFmt f (gs.headD "") gs raw := by
  apply response_found code raw (f, gs)
  apply findSome?_eq_of_get? _ formatters i (s, p, f) (f, gs) h1
  · simp [h2]
  · intro j hj x hx
    have hm := h3 j hj
    rw [hx] at hm
    simp only [Option.some_bind] at hm
    simp [hm]

/-- C1 (code bug): the claim says an out-of-range base-16 index for an
enumerated-list rule degrades to the raw text.  The code instead raises:
the `except` clauses of the list branch name `ValueError` and `KeyError`,
but Python list indexing raises `IndexError`, so the power command `"PW"`
with response `"7"` (index 7 against the 5-entry power list) raises out of
the property instead of returning `"7"`. -/
theorem claim_c1_out_of_range_list_index_raises :
    response ⟨"PW", true, some "7"⟩ = .error .indexError := by
  decide

/-- C2: for a reference command with a response, the decoder applied is the
one paired with the first pattern, in table order, whose anchored match
succeeds against `code + rawResponse`; no later rule is applied, since the
result is exactly rule `i`'s formatter output. -/
theorem claim_c2_first_matching_rule_wins (code raw : String) (i : Nat) (s : String)
    (p : Pat) (f : Fmt) (gs : List String)
    (h1 : formatters.get? i = some (s, p, f))
    (h2 : matchPat p (code.data ++ raw.data) = some gs)
    (h3 : ∀ j, j < i →
      (formatters.get? j).bind (fun q => matchPat q.2.1 (code.data ++ raw.data)) = none) :
    response ⟨code, true, some raw⟩ = applyFmt f (gs.headD "") gs raw :=
  response_first_match code raw i s p f gs h1 h2 h3

/-- Witness for C2 at the source-signal rule, table index 2. -/
theorem claim_c2_witness :
    response ⟨"SC", true, some "1"⟩ =
      applyFmt (.list [some NOSIGNAL, some SIGNAL]) (["1"].headD "") ["1"] "1" :=
  claim_c2_first_matching_rule_wins "SC" "1" 2 "SC(.)" ⟨["SC"], [.fixed 1]⟩
    (.list [some NOSIGNAL, some SIGNAL]) ["1"] (by rfl) (by rfl) (by decide)

/-- C3: when the first matching rule is an enumerated list and the captured
hex group parses to an in-range index, the decoded value is exactly the
list entry at that index — the label for a string entry, and no semantic
value (`none`, not an error and not raw text) for a reserved `None` slot. -/
theorem claim_c3_in_range_list_decode (code raw : String) (i : Nat) (s : String)
    (p : Pat) (entries : List (Option String)) (gs : List String) (k : Nat)
    (h1 : formatters.get? i = some (s, p, .list entries))
    (h2 : matchPat p (code.data ++ raw.data) = some gs)
    (h3 : ∀ j, j < i →
      (formatters.get? j).bind (fun q => matchPat q.2.1 (code.data ++ raw.data)) = none)
    (h4 : pyIntHex? (gs.headD "") = some (k : Int))
    (h5 : k < entries.length) :
    response ⟨code, true, some raw⟩ = .ok (entries.getD k none) := by
  rw [response_first_match code raw i s p (.list entries) gs h1 h2 h3]
  have hnn : ¬ ((k : Int) < 0) := by omega
  have hin : (0 : Int) ≤ (k : Int) ∧ (k : Int) < (entries.length : Int) := by omega
  simp only [applyFmt, h4, pyListGet, if_neg hnn, if_pos hin]
  simp

/-- Witness for C3 at the clear-motion-drive rule, table index 16, response
`"1"`: a reserved `None` slot decodes to no semantic value. -/
theorem claim_c3_witness :
    response ⟨"PMCM", true, some "1"⟩ = .ok none :=
  claim_c3_in_range_list_decode "PMCM" "1" 16 "PMCM(.)" ⟨["PMCM"], [.fixed 1]⟩
    [some "off", none, none, some "low", some "high", some "inverse_telecine"]
    ["1"] 1 (by rfl) (by rfl) (by decide) (by rfl) (by decide)

/-- C4: when the first matching rule is a lookup map and the captured group
is not one of its keys, the `KeyError` is caught and the decoded value is
the raw unparsed remainder of the response; no exception escapes. -/
theorem claim_c4_unknown_map_key_degrades (code raw : String) (i : Nat) (s : String)
    (p : Pat) (kvs : List (String × String)) (gs : List String)
    (h1 : formatters.get? i = some (s, p, .map kvs))
    (h2 : matchPat p (code.data ++ raw.data) = some gs)
    (h3 : ∀ j, j < i →
      (formatters.get? j).bind (fun q => matchPat q.2.1 (code.data ++ raw.data)) = none)
    (h4 : kvs.lookup (gs.headD "") = none) :
    response ⟨code, true, some raw⟩ = .ok (some raw) := by
  rw [response_first_match code raw i s p (.map kvs) gs h1 h2 h3]
  simp only [applyFmt]
  rw [h4]

/-- Witness for C4 at the picture-mode rule, table index 7, with the
unmapped key `"99"`. -/
theorem claim_c4_witness :
    response ⟨"PMPM", true, some "99"⟩ = .ok (some "99") :=
  claim_c4_unknown_map_key_degrades "PMPM" "99" 7 "PMPM(..)" ⟨["PMPM"], [.fixed 2]⟩
    [("01", "cinema"), ("03", "natural"), ("0B", "frame_adapt_hdr"),
      ("0C", "sdr1"), ("0D", "sdr2"), ("0E", "hdr1"), ("0F", "hdr2"),
      ("14", "hlg"), ("15", "hdr10+"), ("17", "filmmaker"),
      ("18", "frame_adapt_hdr2"), ("1B", "vivid")]
    ["99"] (by rfl) (by rfl) (by decide) (by rfl)

/-- C5: the dict literal writes `"IFCM(.)"` twice, so the evaluated table
has exactly one `"IFCM(.)"` rule and its list is the later 11-entry
colorimetry list; the five sensor-layer labels that only the earlier
13-entry list contained are not in it, and no single-hex-digit `"IFCM"`
response ever decodes to one of them. -/
theorem claim_c5_ifcm_single_rule :
    rawFormatters.countP (fun e => e.1 == "IFCM(.)") = 2 ∧
    formatters.countP (fun e => e.1 == "IFCM(.)") = 1 ∧
    formatters.findSome?
      (fun e => if e.1 == "IFCM(.)" then fmtEntries e.2.2 else none) = some ifcmLater ∧
    (∀ l ∈ ifcmLostLabels, some l ∉ ifcmLater) ∧
    (∀ n, n < 16 → ∀ l ∈ ifcmLostLabels,
      response ⟨"IFCM", true, some (hexUpper n)⟩ ≠ .ok (some l)) := by
  decide

/-- Witness for C5: hex index 8 now decodes to the long-form label, not to
`"bt2020_cl"`. -/
theorem claim_c5_witness :
    response ⟨"IFCM", true, some "8"⟩ ≠ .ok (some "bt2020_cl") :=
  claim_c5_ifcm_single_rule.2.2.2.2 8 (by decide) "bt2020_cl" (by decide)

/-- C6: if no pattern in the formatter table matches `code + rawResponse`,
the decoded value is the attached raw response string verbatim. -/
theorem claim_c6_no_match_verbatim (code raw : String)
    (h : ∀ e ∈ formatters, matchPat e.2.1 (code.data ++ raw.data) = none) :
    response ⟨code, true, some raw⟩ = .ok (some raw) := by
  apply response_not_found
  apply findSome?_eq_none_of_all
  intro x hx
  rw [h x hx]
  rfl

/-- Witness for C6 with a code no table pattern covers. -/
theorem claim_c6_witness :
    response ⟨"XX", true, some "YY"⟩ = .ok (some "YY") :=
  claim_c6_no_match_verbatim "XX" "YY" (by decide)

/-- C7: the decoded value is `None` whenever the command is not a reference
command or no response has been attached, regardless of code; operation
commands never expose a decoded value. -/
theorem claim_c7_none_unless_reference (code : String) (r : Option String) (b : Bool) :
    response ⟨code, false, r⟩ = .ok none ∧ response ⟨code, b, none⟩ = .ok none := by
  refine ⟨?_, ?_⟩
  · cases r <;> rfl
  · cases b <;> rfl

/-- C8: the light-source-time reference `"IFLT"` with raw response `"0190"`
decodes to the decimal string `"400"`. -/
theorem claim_c8_iflt_hex_to_decimal :
    response ⟨"IFLT", true, some "0190"⟩ = .ok (some "400") := by
  decide

/-- C9: the network-address reference `"LSIP"` with the four 2-hex-digit
groups `C0`, `A8`, `01`, `01` decodes to `"192.168.1.1"`. -/
theorem claim_c9_lsip_dotted_decimal :
    response ⟨"LSIP", true, some "C0A80101"⟩ = .ok (some "192.168.1.1") := by
  decide

/-- C10: during the connect handshake a greeting other than `PJ_OK` yields
the connect error, the explicit `PJNAK` reject acknowledgment yields the
authentication error, and in the class hierarchy of `error.py` neither of
those two error classes is a subclass of the other. -/
theorem claim_c10_handshake_error_kinds :
    (∀ g a, g ≠ PJOK → handshake g a = .error .jvcProjectorConnectError) ∧
    handshake PJOK PJNAK = .error .jvcProjectorAuthError ∧
    ExcClass.jvcProjectorConnectError ∉ ancestry .jvcProjectorAuthError ∧
    ExcClass.jvcProjectorAuthError ∉ ancestry .jvcProjectorConnectError := by
  refine ⟨?_, by decide, by decide, by decide⟩
  intro g a hg
  simp [handshake, hg]

/-- Witness for C10 at a bogus greeting token. -/
theorem claim_c10_witness :
    handshake "BOGUS" "PJACK" = .error .jvcProjectorConnectError :=
  claim_c10_handshake_error_kinds.1 "BOGUS" "PJACK" (by decide)

end Jvc
